import Mathlib

/-
Shallow embedding of the pharmacy-finder application (maptiler_service.py,
elks_service.py, webhook.py) together with proofs about its specified
behaviour.  External HTTP providers are modelled by explicit "wire" values
describing the observable outcome of each call (an exception, or a response
with a status code and decoded payload); Python floats are modelled by real
numbers, the Python `round(x, 1)` by exact round-half-to-even at one decimal,
and Python `None` returns by `Option`.
-/

open Classical Real List

/-- Boolean test that `pre` is a prefix of `l` (Python `str.startswith`). -/
def leadsWith : List Char → List Char → Bool
  | [], _ => true
  | _ :: _, [] => false
  | a :: as, b :: bs => a == b && leadsWith as bs

/-- Boolean substring test (Python `needle in hay` on strings). -/
def hasSub (hay needle : List Char) : Bool :=
  leadsWith needle hay ||
    match hay with
    | [] => false
    | _ :: t => hasSub t needle

/-- Python `str.lower`, modelled with ASCII case folding (`Char.toLower`);
all inputs relevant to the claims are folded identically by both. -/
def lowerChars (s : String) : List Char :=
  s.data.map Char.toLower

/-- Python `round` to an integer: round half to even (bankers rounding). -/
noncomputable def pyRound (x : ℝ) : ℤ :=
  if x - ⌊x⌋ = 1 / 2 then (if Even ⌊x⌋ then ⌊x⌋ else ⌊x⌋ + 1) else round x

/-- Python `round(x, 1)`: round half to even at the first decimal place. -/
noncomputable def round1 (x : ℝ) : ℝ :=
  (pyRound (10 * x) : ℝ) / 10

/-- Python `math.radians`. -/
noncomputable def radians (x : ℝ) : ℝ :=
  x * π / 180

/-- Python `math.atan2 y x`. -/
noncomputable def atan2 (y x : ℝ) : ℝ :=
  if 0 < x then arctan (y / x)
  else if x < 0 then (if 0 ≤ y then arctan (y / x) + π else arctan (y / x) - π)
  else if 0 < y then π / 2
  else if y < 0 then -(π / 2)
  else 0

/-- Model of `calculate_distance` from maptiler_service.py: Haversine great-circle
distance with Earth radius 6371.0 km. -/
noncomputable def calculate_distance (lat1 lon1 lat2 lon2 : ℝ) : ℝ :=
  let R : ℝ := 6371.0
  let lat1_rad := radians lat1
  let lon1_rad := radians lon1
  let lat2_rad := radians lat2
  let lon2_rad := radians lon2
  let dlon := lon2_rad - lon1_rad
  let dlat := lat2_rad - lat1_rad
  let a := Real.sin (dlat / 2) ^ 2 +
    Real.cos lat1_rad * Real.cos lat2_rad * Real.sin (dlon / 2) ^ 2
  let c := 2 * atan2 (Real.sqrt a) (Real.sqrt (1 - a))
  R * c

/-- One feature of a provider "FeatureCollection" response, as consumed by the
code: `geometry.coordinates = [lon, lat]` plus the optional properties read
from it. -/
structure GeoFeature where
  lon : ℝ
  lat : ℝ
  name : Option String := none
  full_address : Option String := none
  phone : Option String := none

/-- Observable outcome of one MapTiler HTTP call: either an exception raised
anywhere inside the `try` block, or a decoded response with its status code
and feature list (`result.get("features")` absent or empty are the same
empty-list case). -/
inductive WireResult where
  | exn (msg : String)
  | response (status : ℤ) (features : List GeoFeature)

/-- Default latitude used by `geocode_address` (Stockholm). -/
noncomputable def default_lat : ℝ := 59.3293

/-- Default longitude used by `geocode_address` (Stockholm). -/
noncomputable def default_lon : ℝ := 18.0686

/-- Model of `geocode_address` from maptiler_service.py.  The landmark overrides are
checked only inside the `if "stockholm" in address.lower()` guard; on any
provider failure (exception, non-200 status, empty feature set) the default
coordinate is returned, and the `[lon, lat]` pair of the first feature is returned
as `(lat, lon)` on success. -/
noncomputable def geocode_address (address : String) (wire : WireResult) : ℝ × ℝ :=
  if address = "" then (default_lat, default_lon)
  else
    let la := lowerChars address
    if hasSub la "stockholm".data && hasSub la "sergels torg".data then
      (59.3327, 18.0649)
    else if hasSub la "stockholm".data && hasSub la "gamla stan".data then
      (59.3254, 18.0718)
    else if hasSub la "stockholm".data && hasSub la "djurgården".data then
      (59.3249, 18.1186)
    else
      match wire with
      | .exn _ => (default_lat, default_lon)
      | .response status features =>
        if status = 200 then
          match features with
          | [] => (default_lat, default_lon)
          | f :: _ => (f.lat, f.lon)
        else (default_lat, default_lon)

/-- A pharmacy record as built by maptiler_service.py (a Python dict with
keys name, address, distance, coordinates, phone). -/
structure Pharmacy where
  name : String
  address : String
  distance : ℝ
  coordinates : ℝ × ℝ
  phone : String

/-- The comparison used by both `sort(key=lambda x: x["distance"])` calls. -/
noncomputable def leDist (a b : Pharmacy) : Bool :=
  decide (a.distance ≤ b.distance)

/-- Membership test against a distance threshold. -/
noncomputable def distLE (t : ℝ) (p : Pharmacy) : Bool :=
  decide (p.distance ≤ t)

/-- The stable Python `list.sort(key=lambda x: x["distance"])`. -/
noncomputable def sortByDistance (l : List Pharmacy) : List Pharmacy :=
  l.mergeSort leDist

/-- Model of `generate_swedish_phone`: it draws two random integers; the draws are fixed
here (no ranked-output property depends on the synthesized phone string). -/
def generate_swedish_phone : String :=
  "+4671234567"

/-- The loop body of the live branch of `find_nearby_pharmacies`: one
candidate pharmacy per feature whose computed distance is within
`radius_km`, carrying the rounded distance. -/
noncomputable def liveCandidates (lat lon radius_km : ℝ)
    (features : List GeoFeature) : List Pharmacy :=
  features.filterMap (fun f =>
    let distance := calculate_distance lat lon f.lat f.lon
    if distance ≤ radius_km then
      some { name := f.name.getD "Unknown Pharmacy",
             address := f.full_address.getD "Address not available",
             distance := round1 distance,
             coordinates := (f.lat, f.lon),
             phone := f.phone.getD generate_swedish_phone }
    else none)

/-- One entry of the static fallback table in `get_stockholm_pharmacies`. -/
structure CatalogEntry where
  name : String
  address : String
  coordinates : ℝ × ℝ
  phone : String

/-- The static `stockholm_pharmacies` table of maptiler_service.py. -/
noncomputable def stockholm_pharmacies : List CatalogEntry :=
  [ { name := "Apoteket Hjärtat", address := "Sergels Torg 12, Stockholm",
      coordinates := (59.3327, 18.0649), phone := "+46812345678" },
    { name := "Kronans Apotek", address := "Drottninggatan 65, Stockholm",
      coordinates := (59.3336, 18.0627), phone := "+46823456789" },
    { name := "Apotek Fönix", address := "Kungsgatan 32, Stockholm",
      coordinates := (59.3356, 18.0551), phone := "+46834567890" },
    { name := "Lloyds Apotek", address := "Birger Jarlsgatan 22, Stockholm",
      coordinates := (59.3361, 18.0711), phone := "+46845678901" },
    { name := "Apotea Cityapotek", address := "Sveavägen 24, Stockholm",
      coordinates := (59.3376, 18.0605), phone := "+46856789012" },
    { name := "Apoteksgruppen", address := "Odengatan 50, Stockholm",
      coordinates := (59.3468, 18.0621), phone := "+46867890123" },
    { name := "Apotek ICA Maxi", address := "Kungens Kurva, Stockholm",
      coordinates := (59.2751, 17.9254), phone := "+46878901234" } ]

/-- The distance annotation loop of `get_stockholm_pharmacies`: every catalog
entry is given its rounded distance from the provided coordinates. -/
noncomputable def rank_catalog (lat lon : ℝ) : List Pharmacy :=
  stockholm_pharmacies.map (fun e =>
    { name := e.name, address := e.address,
      distance := round1 (calculate_distance lat lon e.coordinates.1 e.coordinates.2),
      coordinates := e.coordinates, phone := e.phone })

/-- Model of `get_stockholm_pharmacies` from maptiler_service.py: rank the catalog,
sort by distance, keep the entries within a fixed 5 km, and if none qualify
return the first three of the sorted list. -/
noncomputable def get_stockholm_pharmacies (lat lon : ℝ) : List Pharmacy :=
  let sorted := sortByDistance (rank_catalog lat lon)
  let nearby := sorted.filter (distLE 5)
  if nearby.isEmpty then sorted.take 3 else nearby

/-- Model of `find_nearby_pharmacies` from maptiler_service.py.  The result is
`Option` because on a non-200 search response control falls off the end of
the `try` block and the Python function returns `None`.  The dead
`if not coordinates: return []` branch is omitted: `geocode_address` always
returns a (truthy) 2-tuple. -/
noncomputable def find_nearby_pharmacies (address : String) (radius_km : ℝ)
    (geo_wire search_wire : WireResult) : Option (List Pharmacy) :=
  let coordinates := geocode_address address geo_wire
  let lat := coordinates.1
  let lon := coordinates.2
  match search_wire with
  | .exn _ => some (get_stockholm_pharmacies lat lon)
  | .response status features =>
    if status = 200 then
      if features.isEmpty then some (get_stockholm_pharmacies lat lon)
      else
        let pharmacies := liveCandidates lat lon radius_km features
        if pharmacies.isEmpty then some (get_stockholm_pharmacies lat lon)
        else some (sortByDistance pharmacies)
    else none

/-- Spec-side description ("rank the static fallback catalog against origin;
if none fall within radius, return exactly the three nearest"), written from
the amended words of claim C2 with the threshold fixed at 5 km: the ranker
keeps the entries within 5 km and orders them ascending, and the
three-nearest relaxation applies when that set is empty. -/
noncomputable def fallback_rank_spec (origin : ℝ × ℝ) : List Pharmacy :=
  let ranked := rank_catalog origin.1 origin.2
  let within := sortByDistance (ranked.filter (distLE 5))
  if within.isEmpty then (sortByDistance ranked).take 3 else within

/-- The wire conditions under which `find_nearby_pharmacies` reaches its
fallback branch: a raised exception, or a 200 response whose feature set is
empty or yields no candidate within the radius. -/
def fallbackTriggered (origin : ℝ × ℝ) (radius_km : ℝ) : WireResult → Prop
  | .exn _ => True
  | .response status features =>
    status = 200 ∧
      (features = [] ∨ liveCandidates origin.1 origin.2 radius_km features = [])

/-- A geocoding wire outcome the source treats as a failure: an exception, a
non-200 status, or an empty feature set. -/
def wireFails : WireResult → Bool
  | .exn _ => true
  | .response status features => !(decide (status = 200)) || features.isEmpty

/-- The landmark-override guard of `geocode_address`: the address must
contain "stockholm" and one of the three landmark names (case-insensitively,
as substrings). -/
def landmarkHit (address : String) : Bool :=
  let la := lowerChars address
  hasSub la "stockholm".data &&
    (hasSub la "sergels torg".data || hasSub la "gamla stan".data ||
      hasSub la "djurgården".data)

/-- Demo provider feature located exactly at the Stockholm default origin. -/
noncomputable def demo_feature : GeoFeature :=
  { lon := 18.0686, lat := 59.3293 }

/-- The pharmacy record the live branch builds from `demo_feature` when the
query originates at the default coordinate. -/
noncomputable def demo_pharmacy : Pharmacy :=
  { name := "Unknown Pharmacy", address := "Address not available",
    distance := 0, coordinates := (59.3293, 18.0686),
    phone := generate_swedish_phone }

/-- First of two equidistant pharmacies used to exercise sort stability. -/
noncomputable def tiedA : Pharmacy :=
  { name := "A", address := "a", distance := 1, coordinates := (0, 0),
    phone := "1" }

/-- Second of two equidistant pharmacies used to exercise sort stability. -/
noncomputable def tiedB : Pharmacy :=
  { name := "B", address := "b", distance := 1, coordinates := (0, 0),
    phone := "2" }

/-- Model of `format_phone_number` from elks_service.py: strip every non-digit
character (Python `filter(str.isdigit, phone)`), then prepend the Swedish
country code according to the leading digits. -/
def format_phone_number (phone : String) : String :=
  let digits := phone.data.filter Char.isDigit
  let p :=
    if leadsWith ['+'] digits then digits
    else if leadsWith ['4', '6'] digits then '+' :: digits
    else if leadsWith ['0'] digits then '+' :: '4' :: '6' :: digits.drop 1
    else '+' :: '4' :: '6' :: digits
  String.mk p

/-- The dictionary returned by the call-placing functions of
elks_service.py. -/
structure CallResult where
  success : Bool
  message : String
  call_id : Option String := none
  reservation_id : Option String := none
  call_type : Option String := none

/-- Observable outcome of one 46elks HTTP call: an exception, or a response
with status code, body text, and the `id` field of the decoded JSON body. -/
inductive ElksWire where
  | exn (msg : String)
  | response (status : ℤ) (text : String) (call_id : String)

/-- elks_service.py executes `import datetime` and later evaluates
`datetime.now()`: the module object has no attribute `now` (the class is
`datetime.datetime`), so the lookup raises `AttributeError`. -/
def datetime_now : Except String String :=
  Except.error "module datetime has no attribute now"

/-- Model of `make_reservation_call` from elks_service.py.  The phone-number
formatting happens before the `try` block; inside it, a 200 response leads
to a result dict whose `reservation_id` evaluates `datetime.now()`, and any
raised exception is converted into a failure dict. -/
def make_reservation_call (user_name user_phone : String) (pharmacy : Pharmacy)
    (medication_name quantity : String) (wire : ElksWire) : CallResult :=
  let _user_phone := format_phone_number user_phone
  let _pharmacy_phone := format_phone_number pharmacy.phone
  let attempt : Except String CallResult :=
    match wire with
    | .exn e => Except.error e
    | .response status text call_id =>
      if status = 200 then
        match datetime_now with
        | Except.error e => Except.error e
        | Except.ok stamp =>
          Except.ok { success := true, message := "Call initiated successfully",
                      call_id := some call_id,
                      reservation_id := some ("res_" ++ stamp),
                      call_type := some "ivr" }
      else
        Except.ok { success := false,
                    message := "Failed to initiate call: " ++ toString status ++
                      " - " ++ text }
  match attempt with
  | Except.ok r => r
  | Except.error e =>
    { success := false, message := "Exception during call initiation: " ++ e }

/-- Model of `make_connect_reservation_call` from elks_service.py; same structure as
`make_reservation_call`, with the connect voice action and messages. -/
def make_connect_reservation_call (user_name user_phone : String)
    (pharmacy : Pharmacy) (medication_name quantity : String)
    (wire : ElksWire) : CallResult :=
  let _user_phone := format_phone_number user_phone
  let _pharmacy_phone := format_phone_number pharmacy.phone
  let attempt : Except String CallResult :=
    match wire with
    | .exn e => Except.error e
    | .response status text call_id =>
      if status = 200 then
        match datetime_now with
        | Except.error e => Except.error e
        | Except.ok stamp =>
          Except.ok { success := true,
                      message := "Connect call initiated successfully",
                      call_id := some call_id,
                      reservation_id := some ("res_" ++ stamp),
                      call_type := some "connect" }
      else
        Except.ok { success := false,
                    message := "Failed to initiate connect call: " ++
                      toString status ++ " - " ++ text }
  match attempt with
  | Except.ok r => r
  | Except.error e =>
    { success := false,
      message := "Exception during connect call initiation: " ++ e }

/-- JSON string escaping used by `json.dump` for the characters that can
occur in form payload values. -/
def jsonEscape (s : String) : String :=
  String.mk (s.data.foldr
    (fun c acc =>
      match c with
      | '"' => '\\' :: '"' :: acc
      | '\\' => '\\' :: '\\' :: acc
      | '\n' => '\\' :: 'n' :: acc
      | c => c :: acc) [])

/-- A single-line `json.dump` of a form dictionary; newlines in values are
escaped, so the dump never contains a literal newline. -/
def jsonDump (d : List (String × String)) : String :=
  "\x7b" ++ String.intercalate ", "
      (d.map (fun kv => "\"" ++ jsonEscape kv.1 ++ "\": \"" ++ jsonEscape kv.2 ++ "\""))
    ++ "\x7d"

/-- Python `dict.get` on a form dictionary. -/
def pyGet (d : List (String × String)) (k : String) : Option String :=
  (d.find? (fun kv => kv.1 == k)).map (·.2)

/-- Observable effect of one request to the webhook endpoint: the lines
appended to call_log.json, and either the HTTP (status, body) produced by
the handler or the uncaught exception it raised. -/
structure WebhookResult where
  call_log_lines : List String
  outcome : Except String (ℤ × String)

/-- The `webhook` handler of webhook.py.  It always appends the payload as
one line of call_log.json first; when the `status` field of the payload is `answered`
it then evaluates `datetime.now()`, but webhook.py never imports `datetime`,
so the handler raises `NameError` (before writing to notifications.txt) and
the framework turns it into an error response instead of the 200. -/
def webhook (data : List (String × String)) : WebhookResult :=
  let logLine := jsonDump data
  if pyGet data "status" = some "answered" then
    { call_log_lines := [logLine],
      outcome := Except.error "NameError: name datetime is not defined" }
  else
    { call_log_lines := [logLine], outcome := Except.ok (200, "") }

/-! Helper lemmas. -/

theorem eq_cons_of_leadsWith {a : Char} {as l : List Char}
    (h : leadsWith (a :: as) l = true) :
    ∃ t, l = a :: t ∧ leadsWith as t = true := by
  cases l with
  | nil => simp [leadsWith] at h
  | cons b bs =>
    simp only [leadsWith, Bool.and_eq_true, beq_iff_eq] at h
    exact ⟨bs, by rw [h.1], h.2⟩

theorem hasSub_nil_of_ne_nil {needle : List Char} (h : needle ≠ []) :
    hasSub [] needle = false := by
  cases needle with
  | nil => exact absurd rfl h
  | cons c cs => simp [hasSub, leadsWith]

theorem abs_pyRound_sub (x : ℝ) : |(pyRound x : ℝ) - x| ≤ 1 / 2 := by
  unfold pyRound
  split_ifs with h1 h2
  · rw [abs_le]
    constructor <;> simp <;> linarith
  · rw [abs_le]
    push_cast
    constructor <;> linarith
  · rw [abs_sub_comm]
    exact abs_sub_round x

theorem round1_le_add (x : ℝ) : round1 x ≤ x + 1 / 20 := by
  have h := (abs_le.mp (abs_pyRound_sub (10 * x))).2
  unfold round1
  linarith

theorem sub_le_round1 (x : ℝ) : x - 1 / 20 ≤ round1 x := by
  have h := (abs_le.mp (abs_pyRound_sub (10 * x))).1
  unfold round1
  linarith

theorem round1_zero : round1 0 = 0 := by
  have h : pyRound 0 = 0 := by
    unfold pyRound
    rw [if_neg]
    · simp
    · norm_num
  simp [round1, h]

theorem pyRound_pi_div_two : pyRound (π / 2) = 2 := by
  have h3 := Real.pi_gt_three
  have h4 := Real.pi_lt_d2
  have hf : ⌊π / 2⌋ = 1 := by
    rw [Int.floor_eq_iff]
    constructor <;> push_cast <;> linarith
  unfold pyRound
  rw [if_neg]
  · rw [round_eq]
    rw [Int.floor_eq_iff]
    constructor <;> push_cast <;> linarith
  · rw [hf]
    intro h
    push_cast at h
    linarith

theorem round1_pi_div_twenty : round1 (π / 20) = 0.2 := by
  have h : (10 : ℝ) * (π / 20) = π / 2 := by ring
  rw [round1, h, pyRound_pi_div_two]
  norm_num

theorem calculate_distance_comm (lat1 lon1 lat2 lon2 : ℝ) :
    calculate_distance lat1 lon1 lat2 lon2 = calculate_distance lat2 lon2 lat1 lon1 := by
  have key : ∀ x y : ℝ, Real.sin ((x - y) / 2) ^ 2 = Real.sin ((y - x) / 2) ^ 2 := by
    intro x y
    rw [show (x - y) / 2 = -((y - x) / 2) by ring, Real.sin_neg, neg_sq]
  have hA : Real.sin ((radians lat2 - radians lat1) / 2) ^ 2 +
      Real.cos (radians lat1) * Real.cos (radians lat2) *
        Real.sin ((radians lon2 - radians lon1) / 2) ^ 2 =
      Real.sin ((radians lat1 - radians lat2) / 2) ^ 2 +
      Real.cos (radians lat2) * Real.cos (radians lat1) *
        Real.sin ((radians lon1 - radians lon2) / 2) ^ 2 := by
    rw [key (radians lat2) (radians lat1), key (radians lon2) (radians lon1)]
    ring
  simp only [calculate_distance]
  rw [hA]

theorem calculate_distance_self (lat lon : ℝ) :
    calculate_distance lat lon lat lon = 0 := by
  have h1 : atan2 (Real.sqrt 0) (Real.sqrt (1 - 0)) = 0 := by
    rw [sub_zero, Real.sqrt_zero, Real.sqrt_one]
    unfold atan2
    rw [if_pos (by norm_num : (0:ℝ) < 1)]
    simp
  simp only [calculate_distance, sub_self, zero_div, Real.sin_zero, zero_pow,
    mul_zero, add_zero, ne_eq, OfNat.ofNat_ne_zero, not_false_iff]
  rw [h1]
  ring

theorem leDist_trans (a b c : Pharmacy) : leDist a b → leDist b c → leDist a c := by
  simp only [leDist, decide_eq_true_eq]
  exact le_trans

theorem leDist_total (a b : Pharmacy) : leDist a b || leDist b a := by
  simp only [leDist, Bool.or_eq_true, decide_eq_true_eq]
  exact le_total _ _

theorem sortByDistance_pairwise (l : List Pharmacy) :
    (sortByDistance l).Pairwise (fun a b => a.distance ≤ b.distance) := by
  have h := List.sorted_mergeSort leDist_trans leDist_total l
  exact h.imp (fun hab => by simpa [leDist] using hab)

theorem mem_sortByDistance {p : Pharmacy} {l : List Pharmacy} :
    p ∈ sortByDistance l ↔ p ∈ l :=
  List.mem_mergeSort

/-- Two decompositions of one list whose left parts consist of `q`-false
elements and right parts of `q`-true elements coincide. -/
theorem split_unique {α : Type} (q : α → Bool) :
    ∀ (x₁ x₂ y₁ y₂ : List α), x₁ ++ x₂ = y₁ ++ y₂ →
      (∀ b ∈ x₁, q b = false) → (∀ b ∈ y₁, q b = false) →
      (∀ b ∈ x₂, q b = true) → (∀ b ∈ y₂, q b = true) →
      x₁ = y₁ ∧ x₂ = y₂ := by
  intro x₁
  induction x₁ with
  | nil =>
    intro x₂ y₁ y₂ h hx1 hy1 hx2 hy2
    cases y₁ with
    | nil => exact ⟨rfl, h⟩
    | cons d ys =>
      exfalso
      simp only [nil_append] at h
      have hqt : q d = true := hx2 d (by rw [h]; exact mem_cons_self d _)
      have hqf : q d = false := hy1 d (mem_cons_self d ys)
      rw [hqt] at hqf
      exact Bool.noConfusion hqf
  | cons c cs ih =>
    intro x₂ y₁ y₂ h hx1 hy1 hx2 hy2
    cases y₁ with
    | nil =>
      exfalso
      simp only [nil_append] at h
      have hqt : q c = true := hy2 c (by rw [← h]; exact mem_cons_self c _)
      have hqf : q c = false := hx1 c (mem_cons_self c cs)
      rw [hqt] at hqf
      exact Bool.noConfusion hqf
    | cons d ys =>
      simp only [cons_append, cons.injEq] at h
      obtain ⟨h1, h2⟩ := h
      obtain ⟨ha, hb⟩ := ih x₂ ys y₂ h2
        (fun b hb => hx1 b (mem_cons_of_mem _ hb))
        (fun b hb => hy1 b (mem_cons_of_mem _ hb)) hx2 hy2
      exact ⟨by rw [h1, ha], hb⟩

/-- A stable sort commutes with `filter`. -/
theorem filter_mergeSort_eq {α : Type} (le : α → α → Bool)
    (htrans : ∀ a b c : α, le a b → le b c → le a c)
    (htotal : ∀ a b : α, le a b || le b a)
    (p : α → Bool) :
    ∀ l : List α, (l.mergeSort le).filter p = (l.filter p).mergeSort le := by
  intro l
  induction l with
  | nil => simp
  | cons a l ih =>
    obtain ⟨l₁, l₂, h₁, h₂, h₃⟩ := List.mergeSort_cons htrans htotal a l
    have hsorted : (List.mergeSort (a :: l) le).Pairwise (fun x y => le x y) :=
      List.sorted_mergeSort htrans htotal (a :: l)
    rw [h₁] at hsorted
    have hl₂ : ∀ b ∈ l₂, le a b = true := by
      have hc := (List.pairwise_append.mp hsorted).2.1
      exact fun b hb => (List.pairwise_cons.mp hc).1 b hb
    by_cases hp : p a = true
    · obtain ⟨m₁, m₂, g₁, g₂, g₃⟩ := List.mergeSort_cons htrans htotal a (l.filter p)
      have hsorted2 : (List.mergeSort (a :: l.filter p) le).Pairwise (fun x y => le x y) :=
        List.sorted_mergeSort htrans htotal _
      rw [g₁] at hsorted2
      have hm₂ : ∀ b ∈ m₂, le a b = true := by
        have hc := (List.pairwise_append.mp hsorted2).2.1
        exact fun b hb => (List.pairwise_cons.mp hc).1 b hb
      rw [h₁, List.filter_append,
        show (a :: l₂).filter p = a :: l₂.filter p from by simp [List.filter_cons, hp],
        show (a :: l).filter p = a :: l.filter p from by simp [List.filter_cons, hp],
        g₁]
      have hIH : l₁.filter p ++ l₂.filter p = m₁ ++ m₂ := by
        rw [← List.filter_append, ← h₂, ih, g₂]
      have hsp := split_unique (fun b => le a b) (l₁.filter p) (l₂.filter p) m₁ m₂ hIH
        (fun b hb => by
          have := h₃ b (List.mem_of_mem_filter hb)
          simpa using this)
        (fun b hb => by
          have := g₃ b hb
          simpa using this)
        (fun b hb => hl₂ b (List.mem_of_mem_filter hb))
        hm₂
      rw [hsp.1, hsp.2]
    · rw [h₁, List.filter_append,
        show (a :: l₂).filter p = l₂.filter p from by simp [List.filter_cons, hp],
        show (a :: l).filter p = l.filter p from by simp [List.filter_cons, hp],
        ← ih, h₂, List.filter_append]

theorem get_stockholm_pairwise (lat lon : ℝ) :
    (get_stockholm_pharmacies lat lon).Pairwise (fun a b => a.distance ≤ b.distance) := by
  simp only [get_stockholm_pharmacies]
  have h := sortByDistance_pairwise (rank_catalog lat lon)
  split_ifs with h1
  · exact h.sublist (List.take_sublist _ _)
  · exact h.sublist (List.filter_sublist _)

theorem get_stockholm_eq_spec (lat lon : ℝ) :
    get_stockholm_pharmacies lat lon = fallback_rank_spec (lat, lon) := by
  simp only [get_stockholm_pharmacies, fallback_rank_spec, sortByDistance]
  rw [filter_mergeSort_eq leDist leDist_trans leDist_total (distLE 5)]

theorem calculate_distance_pole (lat2 lon2 : ℝ) (h1 : -90 < lat2) (h2 : lat2 ≤ 90) :
    calculate_distance 90 0 lat2 lon2 = 6371 * ((90 - lat2) * π / 180) := by
  have hπ := Real.pi_pos
  set u : ℝ := (90 - lat2) * π / 360 with hu
  have hu0 : 0 ≤ u := by
    rw [hu]
    have : (0:ℝ) ≤ 90 - lat2 := by linarith
    positivity
  have hult : u < π / 2 := by
    rw [hu]
    nlinarith [mul_pos (show (0:ℝ) < lat2 + 90 by linarith) hπ]
  have hsin : 0 ≤ Real.sin u :=
    Real.sin_nonneg_of_nonneg_of_le_pi hu0 (by linarith)
  have hcosu : 0 < Real.cos u :=
    Real.cos_pos_of_mem_Ioo ⟨by linarith, hult⟩
  have h90 : radians 90 = π / 2 := by unfold radians; ring
  have hdlat : (radians lat2 - π / 2) / 2 = -u := by
    unfold radians
    rw [hu]
    ring
  have h1s : 1 - Real.sin u ^ 2 = Real.cos u ^ 2 := by
    have := Real.sin_sq_add_cos_sq u
    linarith
  simp only [calculate_distance, hdlat, h90, Real.cos_pi_div_two, zero_mul,
    add_zero, Real.sin_neg, neg_sq]
  rw [Real.sqrt_sq hsin, h1s, Real.sqrt_sq hcosu.le]
  unfold atan2
  rw [if_pos hcosu, ← Real.tan_eq_sin_div_cos,
    Real.arctan_tan (by linarith) hult, hu]
  ring

theorem geocode_empty (w : WireResult) :
    geocode_address "" w = (default_lat, default_lon) := by
  unfold geocode_address
  rw [if_pos rfl]

theorem geocode_failing (addr : String) (w : WireResult)
    (hw : wireFails w = true) (hl : landmarkHit addr = false) :
    geocode_address addr w = (default_lat, default_lon) := by
  by_cases he : addr = ""
  · subst he
    exact geocode_empty w
  · have hsplit : ∀ x a b c : Bool,
        (x && (a || b || c)) = false →
        (x && a) = false ∧ (x && b) = false ∧ (x && c) = false := by decide
    simp only [landmarkHit] at hl
    obtain ⟨h1, h2, h3⟩ := hsplit _ _ _ _ hl
    cases w with
    | exn m =>
      simp only [geocode_address, if_neg he]
      rw [if_neg (by simp [h1]), if_neg (by simp [h2]), if_neg (by simp [h3])]
    | response s fs =>
      simp only [geocode_address, if_neg he]
      rw [if_neg (by simp [h1]), if_neg (by simp [h2]), if_neg (by simp [h3])]
      by_cases hs : s = 200
      · rw [if_pos hs]
        subst hs
        simp only [wireFails, decide_eq_true_eq, Bool.not_eq_true',
          Bool.or_eq_true, decide_eq_false_iff_not, not_true, false_or] at hw
        cases fs with
        | nil => rfl
        | cons f t => simp [List.isEmpty] at hw
      · rw [if_neg hs]

theorem liveCandidates_cons (lat lon r : ℝ) (f : GeoFeature) (fs : List GeoFeature) :
    liveCandidates lat lon r (f :: fs) =
      if calculate_distance lat lon f.lat f.lon ≤ r then
        { name := f.name.getD "Unknown Pharmacy",
          address := f.full_address.getD "Address not available",
          distance := round1 (calculate_distance lat lon f.lat f.lon),
          coordinates := (f.lat, f.lon),
          phone := f.phone.getD generate_swedish_phone } :: liveCandidates lat lon r fs
      else liveCandidates lat lon r fs := by
  simp only [liveCandidates, List.filterMap_cons]
  split_ifs with h <;> rfl

theorem liveCandidates_demo :
    liveCandidates 59.3293 18.0686 5 [demo_feature] = [demo_pharmacy] := by
  rw [liveCandidates_cons]
  simp only [demo_feature]
  rw [calculate_distance_self, if_pos (by norm_num : (0:ℝ) ≤ 5), round1_zero]
  rfl

theorem find_demo :
    find_nearby_pharmacies "" 5 (WireResult.exn "timeout")
      (WireResult.response 200 [demo_feature]) = some [demo_pharmacy] := by
  simp only [find_nearby_pharmacies, geocode_empty, default_lat, default_lon]
  rw [liveCandidates_demo]
  simp [sortByDistance]

theorem round1_pole_between (c : ℝ) (hc1 : 30 ≤ c) (hc2 : c ≤ 31) :
    5 < round1 (6371 * (c * π / 180)) ∧ round1 (6371 * (c * π / 180)) ≤ 20016 := by
  have hπ3 := Real.pi_gt_three
  have hπ4 := Real.pi_lt_d2
  have hy1 : (3000 : ℝ) ≤ 6371 * (c * π / 180) := by nlinarith
  have hy2 : 6371 * (c * π / 180) ≤ 20000 := by nlinarith
  constructor
  · have := sub_le_round1 (6371 * (c * π / 180))
    linarith
  · have := round1_le_add (6371 * (c * π / 180))
    linarith

theorem rank_catalog_pole_bounds :
    ∀ p ∈ rank_catalog 90 0, 5 < p.distance ∧ p.distance ≤ 20016 := by
  intro p hp
  simp only [rank_catalog, stockholm_pharmacies, List.map_cons, List.map_nil,
    List.mem_cons, List.not_mem_nil, or_false] at hp
  rcases hp with h | h | h | h | h | h | h <;> subst h <;> dsimp only <;>
    rw [calculate_distance_pole _ _ (by norm_num) (by norm_num)] <;>
    exact round1_pole_between _ (by norm_num) (by norm_num)

theorem stockholm_pole_filter :
    (sortByDistance (rank_catalog 90 0)).filter (distLE 5) = [] := by
  rw [List.filter_eq_nil_iff]
  intro p hp
  have hm : p ∈ rank_catalog 90 0 := mem_sortByDistance.mp hp
  have hgt := (rank_catalog_pole_bounds p hm).1
  simp only [distLE, decide_eq_true_eq]
  intro hle
  linarith

theorem get_stockholm_pole_len : (get_stockholm_pharmacies 90 0).length = 3 := by
  simp only [get_stockholm_pharmacies]
  rw [stockholm_pole_filter]
  simp only [List.isEmpty_nil, if_pos, List.length_take, sortByDistance,
    List.length_mergeSort, rank_catalog, List.length_map, stockholm_pharmacies]
  rfl

theorem claim_radius_pole_len :
    (sortByDistance ((rank_catalog 90 0).filter (distLE 20016))).length = 7 := by
  have hall : (rank_catalog 90 0).filter (distLE 20016) = rank_catalog 90 0 := by
    rw [List.filter_eq_self]
    intro p hp
    have := (rank_catalog_pole_bounds p hp).2
    simpa [distLE] using this
  rw [hall]
  simp only [sortByDistance, List.length_mergeSort, rank_catalog,
    List.length_map, stockholm_pharmacies]
  rfl

/-! Claim theorems. -/

/-- C7: for all valid coordinate pairs (latitudes in [-90, 90], longitudes in
[-180, 180]), `calculate_distance` is symmetric, and the Haversine distance
from a point to itself is 0. -/
theorem C7_calculate_distance_symm_self :
    (∀ lat1 lon1 lat2 lon2 : ℝ,
      -90 ≤ lat1 → lat1 ≤ 90 → -180 ≤ lon1 → lon1 ≤ 180 →
      -90 ≤ lat2 → lat2 ≤ 90 → -180 ≤ lon2 → lon2 ≤ 180 →
      calculate_distance lat1 lon1 lat2 lon2 = calculate_distance lat2 lon2 lat1 lon1) ∧
    (∀ lat lon : ℝ, -90 ≤ lat → lat ≤ 90 → -180 ≤ lon → lon ≤ 180 →
      calculate_distance lat lon lat lon = 0) :=
  ⟨fun lat1 lon1 lat2 lon2 _ _ _ _ _ _ _ _ =>
      calculate_distance_comm lat1 lon1 lat2 lon2,
   fun lat lon _ _ _ _ => calculate_distance_self lat lon⟩

/-- Witness for C7 at the concrete pairs (59, 18) and (35, 139). -/
theorem C7_witness :
    calculate_distance 59 18 35 139 = calculate_distance 35 139 59 18 ∧
    calculate_distance 59 18 59 18 = 0 :=
  ⟨C7_calculate_distance_symm_self.1 59 18 35 139 (by norm_num) (by norm_num)
      (by norm_num) (by norm_num) (by norm_num) (by norm_num) (by norm_num)
      (by norm_num),
   C7_calculate_distance_symm_self.2 59 18 (by norm_num) (by norm_num)
      (by norm_num) (by norm_num)⟩

/-- C5: `geocode_address ""` returns the configured default coordinate
(59.3293, 18.0686) exactly, and whenever the provider call is made (no
landmark override short-circuits it) and fails — exception, non-200 status,
or empty feature set — the same default is returned; the embedding is a
total function, mirroring that resolution never raises. -/
theorem C5_geocode_default :
    (∀ w : WireResult, geocode_address "" w = (59.3293, 18.0686)) ∧
    (∀ (addr : String) (w : WireResult),
      wireFails w = true → landmarkHit addr = false →
      geocode_address addr w = (59.3293, 18.0686)) := by
  constructor
  · intro w
    rw [geocode_empty]
    rfl
  · intro addr w hw hl
    rw [geocode_failing addr w hw hl]
    rfl

/-- Witness for C5: the empty address under a network error, and a plain
street address under a 500 response with no features. -/
theorem C5_witness :
    geocode_address "" (WireResult.exn "network error") = (59.3293, 18.0686) ∧
    geocode_address "Main Street 5" (WireResult.response 500 []) = (59.3293, 18.0686) :=
  ⟨C5_geocode_default.1 (WireResult.exn "network error"),
   C5_geocode_default.2 "Main Street 5" (WireResult.response 500 [])
      (by decide) (by decide)⟩

/-- C4 counterexample: "sergels torg" contains a landmark name but not
"stockholm", so the code consults the live provider and returns its value
(20, 10) instead of the hard-coded landmark coordinate. -/
theorem C4_counterexample :
    geocode_address "sergels torg"
        (WireResult.response 200 [{ lon := 10, lat := 20 }]) = (20, 10) ∧
    ((20 : ℝ), (10 : ℝ)) ≠ ((59.3327 : ℝ), (18.0649 : ℝ)) := by
  constructor
  · simp only [geocode_address]
    rw [if_neg (by decide : ¬("sergels torg" = "")), if_neg (by decide),
      if_neg (by decide), if_neg (by decide)]
    rfl
  · intro h
    have h1 : (20 : ℝ) = 59.3327 := congrArg Prod.fst h
    norm_num at h1

/-- C4 amended: for every address that contains "stockholm" together with a
landmark name (case-insensitively, as substrings), `geocode_address` returns
the hard-coded coordinate of that landmark without consulting the provider, the
landmarks being checked in the order Sergels Torg, Gamla Stan, Djurgården. -/
theorem C4_amended (addr : String) (w : WireResult)
    (hst : hasSub (lowerChars addr) "stockholm".data = true) :
    (hasSub (lowerChars addr) "sergels torg".data = true →
      geocode_address addr w = (59.3327, 18.0649)) ∧
    (hasSub (lowerChars addr) "sergels torg".data = false →
      hasSub (lowerChars addr) "gamla stan".data = true →
      geocode_address addr w = (59.3254, 18.0718)) ∧
    (hasSub (lowerChars addr) "sergels torg".data = false →
      hasSub (lowerChars addr) "gamla stan".data = false →
      hasSub (lowerChars addr) "djurgården".data = true →
      geocode_address addr w = (59.3249, 18.1186)) := by
  have hne : addr ≠ "" := by
    intro he
    subst he
    have hnil : lowerChars "" = [] := rfl
    rw [hnil, hasSub_nil_of_ne_nil (by decide)] at hst
    exact Bool.noConfusion hst
  refine ⟨?_, ?_, ?_⟩
  · intro hs
    simp only [geocode_address, if_neg hne]
    rw [if_pos (by rw [hst, hs]; rfl)]
  · intro hs hg
    simp only [geocode_address, if_neg hne]
    rw [if_neg (by simp [hs]), if_pos (by rw [hst, hg]; rfl)]
  · intro hs hg hd
    simp only [geocode_address, if_neg hne]
    rw [if_neg (by simp [hs]), if_neg (by simp [hg]), if_pos (by rw [hst, hd]; rfl)]

/-- Witness for C4 amended: the example address from the claim returns the
hard-coded Sergels Torg coordinate even though the provider is reachable
and answers with a different location. -/
theorem C4_witness :
    geocode_address "Sergels Torg, Stockholm"
      (WireResult.response 200 [{ lon := 1, lat := 2 }]) = (59.3327, 18.0649) :=
  (C4_amended "Sergels Torg, Stockholm"
      (WireResult.response 200 [{ lon := 1, lat := 2 }]) (by decide)).1 (by decide)

/-- C1 (code bug): on a non-success search response the fallback inside the
`if status == 200` block is never reached, control falls off the end of the
function, and `find_nearby_pharmacies` returns `None` even though the static
fallback catalog has its 7 entries. -/
theorem C1_none_on_non_success :
    find_nearby_pharmacies "Kungsgatan 1" 5 (WireResult.exn "geocode down")
        (WireResult.response 500 []) = none ∧
    stockholm_pharmacies.length = 7 := by
  constructor
  · simp only [find_nearby_pharmacies]
    rw [if_neg (by decide : ¬((500 : ℤ) = 200))]
  · rfl

/-- C9: both call-placing functions are total and always return a result
whose `success` field is `False`: the 200 branch evaluates `datetime.now()`
on the `datetime` module, which raises and is converted by the handler into
a failure dictionary. -/
theorem C9_calls_never_successful :
    ∀ (user_name user_phone : String) (pharmacy : Pharmacy)
      (medication_name quantity : String) (w : ElksWire),
      (make_reservation_call user_name user_phone pharmacy
          medication_name quantity w).success = false ∧
      (make_connect_reservation_call user_name user_phone pharmacy
          medication_name quantity w).success = false := by
  intro un up ph mn q w
  cases w with
  | exn e => exact ⟨rfl, rfl⟩
  | response s t cid =>
    by_cases hs : s = 200
    · subst hs
      exact ⟨rfl, rfl⟩
    · constructor <;>
        simp [make_reservation_call, make_connect_reservation_call, hs]

/-- C10: for every input string, `format_phone_number` returns "+46"
followed only by decimal digits; every non-digit character of the input,
including any leading "+", has been stripped. -/
theorem C10_format_phone_prefix :
    ∀ s : String, ∃ t : List Char,
      (format_phone_number s).data = '+' :: '4' :: '6' :: t ∧
      t.all Char.isDigit = true := by
  intro s
  have hall : ∀ c ∈ s.data.filter Char.isDigit, Char.isDigit c = true :=
    fun c hc => (List.mem_filter.mp hc).2
  simp only [format_phone_number]
  set digits := s.data.filter Char.isDigit with hd
  by_cases h1 : leadsWith ['+'] digits = true
  · exfalso
    obtain ⟨t, ht, _⟩ := eq_cons_of_leadsWith h1
    have hplus : Char.isDigit '+' = true := by
      apply hall
      rw [ht]
      exact mem_cons_self _ _
    exact Bool.noConfusion ((by decide : Char.isDigit '+' = false) ▸ hplus)
  · rw [if_neg h1]
    by_cases h2 : leadsWith ['4', '6'] digits = true
    · rw [if_pos h2]
      obtain ⟨t1, ht1, h2t⟩ := eq_cons_of_leadsWith h2
      obtain ⟨t2, ht2, _⟩ := eq_cons_of_leadsWith h2t
      refine ⟨t2, ?_, ?_⟩
      · show '+' :: digits = '+' :: '4' :: '6' :: t2
        rw [ht1, ht2]
      · rw [List.all_eq_true]
        intro c hc
        apply hall
        rw [ht1, ht2]
        exact mem_cons_of_mem _ (mem_cons_of_mem _ hc)
    · rw [if_neg h2]
      by_cases h3 : leadsWith ['0'] digits = true
      · rw [if_pos h3]
        refine ⟨digits.drop 1, rfl, ?_⟩
        rw [List.all_eq_true]
        intro c hc
        apply hall
        exact List.drop_subset 1 digits hc
      · rw [if_neg h3]
        refine ⟨digits, rfl, ?_⟩
        rw [List.all_eq_true]
        intro c hc
        apply hall
        exact hc

/-- C8 (code bug): a payload whose `status` is `answered` is appended to the
call log as one line, but the handler then hits the missing `datetime`
binding and raises `NameError` instead of returning the 200 response. -/
theorem C8_answered_payload_raises :
    (webhook [("status", "answered"), ("id", "call123")]).call_log_lines.length = 1 ∧
    (webhook [("status", "answered"), ("id", "call123")]).outcome =
      Except.error "NameError: name datetime is not defined" := by
  constructor <;> rfl

/-- C6: every list returned by `find_nearby_pharmacies` (live branch and
fallback branch alike) is sorted ascending by the distance field, and the
sort used by both branches is stable: candidates at equal distance keep
their input order. -/
theorem C6_output_sorted_and_stable :
    (∀ (addr : String) (r : ℝ) (gw sw : WireResult) (out : List Pharmacy),
      find_nearby_pharmacies addr r gw sw = some out →
      out.Pairwise (fun a b => a.distance ≤ b.distance)) ∧
    (∀ (l : List Pharmacy) (a b : Pharmacy),
      a.distance = b.distance → [a, b] <+ l → [a, b] <+ sortByDistance l) := by
  constructor
  · intro addr r gw sw out h
    cases sw with
    | exn m =>
      simp only [find_nearby_pharmacies, Option.some.injEq] at h
      rw [← h]
      exact get_stockholm_pairwise _ _
    | response s fs =>
      simp only [find_nearby_pharmacies] at h
      by_cases hs : s = 200
      · rw [if_pos hs] at h
        by_cases hf : fs.isEmpty = true
        · rw [if_pos hf] at h
          simp only [Option.some.injEq] at h
          rw [← h]
          exact get_stockholm_pairwise _ _
        · rw [if_neg hf] at h
          by_cases hp : (liveCandidates (geocode_address addr gw).1
              (geocode_address addr gw).2 r fs).isEmpty = true
          · rw [if_pos hp] at h
            simp only [Option.some.injEq] at h
            rw [← h]
            exact get_stockholm_pairwise _ _
          · rw [if_neg hp] at h
            simp only [Option.some.injEq] at h
            rw [← h]
            exact sortByDistance_pairwise _
      · rw [if_neg hs] at h
        exact absurd h (by simp)
  · intro l a b hab hsub
    unfold sortByDistance
    apply List.pair_sublist_mergeSort leDist_trans leDist_total
    · simp [leDist, hab]
    · exact hsub

/-- Witness for C6: a concrete live-branch run whose single-element output
is sorted, and a concrete pair of equidistant pharmacies that keeps its
input order through the sort. -/
theorem C6_witness :
    [demo_pharmacy].Pairwise (fun a b => a.distance ≤ b.distance) ∧
    [tiedA, tiedB] <+ sortByDistance [tiedA, tiedB] :=
  ⟨C6_output_sorted_and_stable.1 "" 5 (WireResult.exn "timeout")
      (WireResult.response 200 [demo_feature]) [demo_pharmacy] find_demo,
   C6_output_sorted_and_stable.2 [tiedA, tiedB] tiedA tiedB rfl
      (List.Sublist.refl _)⟩

/-- C2 counterexample: with the origin resolved to the north pole (geocoding
succeeds, the nearby search is unreachable) and radius 20016 km, the claim
prescribes all 7 catalog entries (each within 20016 km), but the code keeps
only the entries within its fixed 5 km threshold — none — and returns the 3
nearest instead. -/
theorem C2_counterexample :
    ((find_nearby_pharmacies "North Pole" 20016
        (WireResult.response 200 [{ lon := 0, lat := 90 }])
        (WireResult.exn "connection refused")).getD []).length = 3 ∧
    (sortByDistance ((rank_catalog 90 0).filter (distLE 20016))).length = 7 := by
  constructor
  · have hg : geocode_address "North Pole"
        (WireResult.response 200 [{ lon := 0, lat := 90 }]) = (90, 0) := by
      simp only [geocode_address]
      rw [if_neg (by decide : ¬("North Pole" = "")), if_neg (by decide),
        if_neg (by decide), if_neg (by decide)]
      rfl
    simp only [find_nearby_pharmacies, hg]
    show (get_stockholm_pharmacies 90 0).length = 3
    exact get_stockholm_pole_len
  · exact claim_radius_pole_len

/-- C2 amended: whenever the search wire reaches the fallback (exception, or
200 with an empty feature set, or 200 with no candidate within the radius),
`find_nearby_pharmacies` returns exactly the spec-side ranking of the static
catalog against the resolved origin with the threshold fixed at 5 km — the
query radius does not appear — and with the three-nearest relaxation when
no entry is within 5 km. -/
theorem C2_amended (addr : String) (r : ℝ) (gw sw : WireResult)
    (h : fallbackTriggered (geocode_address addr gw) r sw) :
    find_nearby_pharmacies addr r gw sw =
      some (fallback_rank_spec (geocode_address addr gw)) := by
  cases sw with
  | exn m =>
    simp only [find_nearby_pharmacies]
    rw [get_stockholm_eq_spec, Prod.mk.eta]
  | response s fs =>
    obtain ⟨hs, hcase⟩ := h
    subst hs
    simp only [find_nearby_pharmacies]
    rw [if_pos trivial]
    rcases hcase with hfs | hlc
    · subst hfs
      rw [if_pos List.isEmpty_nil, get_stockholm_eq_spec, Prod.mk.eta]
    · by_cases hfse : fs.isEmpty = true
      · rw [if_pos hfse, get_stockholm_eq_spec, Prod.mk.eta]
      · rw [if_neg hfse]
        have hempty : (liveCandidates (geocode_address addr gw).1
            (geocode_address addr gw).2 r fs).isEmpty = true := by
          rw [hlc]
          rfl
        rw [if_pos hempty, get_stockholm_eq_spec, Prod.mk.eta]

/-- Witness for C2 amended: both wires unreachable, radius 7 km. -/
theorem C2_witness :
    find_nearby_pharmacies "" 7 (WireResult.exn "geo down")
        (WireResult.exn "search down") =
      some (fallback_rank_spec (geocode_address "" (WireResult.exn "geo down"))) :=
  C2_amended "" 7 (WireResult.exn "geo down") (WireResult.exn "search down") trivial

/-- On a 200 search response with features and at least one candidate within
the radius, `find_nearby_pharmacies` returns the sorted candidate list. -/
theorem find_nearby_live (addr : String) (r : ℝ) (gw : WireResult)
    (fs : List GeoFeature) (hfs : fs.isEmpty = false)
    (hne : (liveCandidates (geocode_address addr gw).1
        (geocode_address addr gw).2 r fs).isEmpty = false) :
    find_nearby_pharmacies addr r gw (WireResult.response 200 fs) =
      some (sortByDistance (liveCandidates (geocode_address addr gw).1
        (geocode_address addr gw).2 r fs)) := by
  simp only [find_nearby_pharmacies]
  rw [if_pos trivial, if_neg (by simp [hfs]), if_neg (by simp [hne])]

/-- C3 counterexample: a live-branch candidate at true distance pi/20 km
(about 0.157 km) from the resolved origin is included for radius 0.158, but
its reported distance field is the rounded value 0.2, which exceeds the
radius. -/
theorem C3_counterexample :
    find_nearby_pharmacies "x" 0.158
        (WireResult.response 200 [{ lon := 0, lat := 90 }])
        (WireResult.response 200 [{ lon := 0, lat := 90 - 9 / 6371 }]) =
      some [{ name := "Unknown Pharmacy", address := "Address not available",
              distance := 0.2, coordinates := ((90 - 9 / 6371 : ℝ), 0),
              phone := generate_swedish_phone }] ∧
    ¬ ((0.2 : ℝ) ≤ 0.158) := by
  constructor
  · have hg : geocode_address "x"
        (WireResult.response 200 [{ lon := 0, lat := 90 }]) = (90, 0) := by
      simp only [geocode_address]
      rw [if_neg (by decide : ¬("x" = "")), if_neg (by decide),
        if_neg (by decide), if_neg (by decide)]
      rfl
    have hd : calculate_distance 90 0 (90 - 9 / 6371) 0 = π / 20 := by
      rw [calculate_distance_pole _ _ (by norm_num) (by norm_num)]
      ring
    have hlive : liveCandidates 90 0 0.158 [{ lon := 0, lat := 90 - 9 / 6371 }] =
        [{ name := "Unknown Pharmacy", address := "Address not available",
           distance := 0.2, coordinates := ((90 - 9 / 6371 : ℝ), 0),
           phone := generate_swedish_phone }] := by
      rw [liveCandidates_cons]
      show (if calculate_distance 90 0 (90 - 9 / 6371) 0 ≤ 0.158 then _ else _) = _
      rw [hd, if_pos (by nlinarith [Real.pi_lt_d2] : π / 20 ≤ (0.158 : ℝ))]
      rw [round1_pi_div_twenty]
      rfl
    have hne2 : (liveCandidates
        (geocode_address "x" (WireResult.response 200 [{ lon := 0, lat := 90 }])).1
        (geocode_address "x" (WireResult.response 200 [{ lon := 0, lat := 90 }])).2
        0.158 [{ lon := 0, lat := 90 - 9 / 6371 }]).isEmpty = false := by
      rw [hg]
      show (liveCandidates 90 0 0.158
        [{ lon := 0, lat := 90 - 9 / 6371 }]).isEmpty = false
      rw [hlive]
      rfl
    rw [find_nearby_live "x" 0.158
        (WireResult.response 200 [{ lon := 0, lat := 90 }])
        [{ lon := 0, lat := 90 - 9 / 6371 }] (by decide) hne2, hg]
    show some (sortByDistance (liveCandidates 90 0 0.158
        [{ lon := 0, lat := 90 - 9 / 6371 }])) =
      some [{ name := "Unknown Pharmacy", address := "Address not available",
              distance := 0.2, coordinates := ((90 - 9 / 6371 : ℝ), 0),
              phone := generate_swedish_phone }]
    rw [hlive]
    simp [sortByDistance]
  · norm_num

/-- C3 amended: in the live-provider branch a candidate is included only if
its computed (pre-rounding) distance is within the radius, and every item of
the ranked output carries a reported distance that is the rounded computed
distance, hence at most radius + 0.05 km; the fallback branch instead uses
its fixed 5 km threshold with a three-nearest relaxation (claims C1/C2). -/
theorem C3_amended (addr : String) (r : ℝ) (gw : WireResult)
    (fs : List GeoFeature) (hfs : fs.isEmpty = false)
    (hne : (liveCandidates (geocode_address addr gw).1
        (geocode_address addr gw).2 r fs).isEmpty = false) :
    ∀ p ∈ (find_nearby_pharmacies addr r gw (WireResult.response 200 fs)).getD [],
      p.distance ≤ r + 1 / 20 ∧
      ∃ f ∈ fs,
        calculate_distance (geocode_address addr gw).1
          (geocode_address addr gw).2 f.lat f.lon ≤ r ∧
        p.distance = round1 (calculate_distance (geocode_address addr gw).1
          (geocode_address addr gw).2 f.lat f.lon) := by
  intro p hp
  have hout : (find_nearby_pharmacies addr r gw (WireResult.response 200 fs)).getD []
      = sortByDistance (liveCandidates (geocode_address addr gw).1
          (geocode_address addr gw).2 r fs) := by
    rw [find_nearby_live addr r gw fs hfs hne]
    rfl
  rw [hout] at hp
  have hmem := mem_sortByDistance.mp hp
  simp only [liveCandidates, List.mem_filterMap] at hmem
  obtain ⟨f, hf, heq⟩ := hmem
  by_cases hc : calculate_distance (geocode_address addr gw).1
      (geocode_address addr gw).2 f.lat f.lon ≤ r
  · rw [if_pos hc] at heq
    have hp' : p = { name := f.name.getD "Unknown Pharmacy",
                     address := f.full_address.getD "Address not available",
                     distance := round1 (calculate_distance
                       (geocode_address addr gw).1
                       (geocode_address addr gw).2 f.lat f.lon),
                     coordinates := (f.lat, f.lon),
                     phone := f.phone.getD generate_swedish_phone } := by
      injection heq with heq
      exact heq.symm
    constructor
    · rw [hp']
      have := round1_le_add (calculate_distance (geocode_address addr gw).1
        (geocode_address addr gw).2 f.lat f.lon)
      dsimp only
      linarith
    · exact ⟨f, hf, hc, by rw [hp']⟩
  · rw [if_neg hc] at heq
    exact absurd heq (by simp)

/-- Witness for C3 amended: the demo live-branch run at radius 5 whose
single output item is the demo pharmacy at distance 0. -/
theorem C3_witness :
    demo_pharmacy.distance ≤ 5 + 1 / 20 ∧
    ∃ f ∈ [demo_feature],
      calculate_distance (geocode_address "" (WireResult.exn "timeout")).1
        (geocode_address "" (WireResult.exn "timeout")).2 f.lat f.lon ≤ 5 ∧
      demo_pharmacy.distance = round1 (calculate_distance
        (geocode_address "" (WireResult.exn "timeout")).1
        (geocode_address "" (WireResult.exn "timeout")).2 f.lat f.lon) :=
  C3_amended "" 5 (WireResult.exn "timeout") [demo_feature] rfl
    (by
      rw [geocode_empty]
      show (liveCandidates 59.3293 18.0686 5 [demo_feature]).isEmpty = false
      rw [liveCandidates_demo]
      rfl)
    demo_pharmacy
    (by
      rw [find_demo]
      exact mem_cons_self _ _)
